import Mathlib

/-!
A shallow embedding of `amazon_advertising_api/advertising_api.py`
(class `AdvertisingApi` and the `NoRedirectHandler` response processor),
together with proofs about the behaviours the specification describes.

Modelling conventions:
* Python semantics are those of Python 3 (the supported runtime): in
  particular `HTTPError.read()` yields `bytes`, and `str.format` renders a
  bytes object as its `b'...'` repr.
* The network (`urllib.request.urlopen`) is modelled by a `Transport`
  oracle mapping each issued `Request` to a wire-level response; every
  embedded operation additionally returns the list of requests it issued,
  in order, so that "no network call" and "second unauthenticated GET"
  are statable.
* Response payloads are modelled as `String`s of their ASCII bytes; the
  gzip codec (`gzip.GzipFile(...).read()`) is an oracle
  `String → Option String` supplied to the download operations.
* `json.loads` is modelled by an executable parser `jsonParse` covering the
  JSON fragment the library exchanges (null / booleans / integers /
  escape-free strings / arrays / objects); Python raising
  `json.JSONDecodeError` corresponds to `jsonParse` returning `none`.
* Raised Python exceptions are modelled by the `Except PyErr` monad; the
  default opener's automatic following of non-307 redirects is outside
  every claim and is flagged by a dedicated marker error instead of being
  modelled, and theorems about arbitrary transports carry hypotheses
  keeping them away from that marker.
* Construction (`__init__`, the `regions`/`versions` tables) is not
  modelled: no claim concerns it, and a `Client` record is built directly
  with the instance attributes `__init__` would have set.
-/

namespace AdApi

/-! ## Characters used symbolically (kept out of string literals) -/

def squoteC : Char := Char.ofNat 39   -- single quote
def dquoteC : Char := Char.ofNat 34   -- double quote
def bslashC : Char := Char.ofNat 92   -- backslash
def pctC : Char := Char.ofNat 37      -- percent sign
def sq : String := String.singleton squoteC

/-! ## Python `in` on strings (substring containment) -/

def isPrefixListB : List Char → List Char → Bool
  | [], _ => true
  | _ :: _, [] => false
  | a :: as, b :: bs => a = b && isPrefixListB as bs

def isInfixListB (n : List Char) : List Char → Bool
  | [] => isPrefixListB n []
  | h :: t => isPrefixListB n (h :: t) || isInfixListB n t

/-- Python `needle in hay` on `str` values: substring containment. -/
def strContains (hay needle : String) : Bool :=
  isInfixListB needle.toList hay.toList

/-! ## Percent decoding: `urllib.parse.unquote` (ASCII fragment) -/

def isHexDigitC (c : Char) : Bool :=
  c.isDigit || (97 ≤ c.toNat && c.toNat ≤ 102) || (65 ≤ c.toNat && c.toNat ≤ 70)

def hexValC (c : Char) : Nat :=
  if c.isDigit then c.toNat - 48
  else if 97 ≤ c.toNat then c.toNat - 87
  else c.toNat - 55

def unquoteChars : List Char → List Char
  | [] => []
  | [c] => [c]
  | [c, a] => [c, a]
  | c :: a :: b :: rest =>
    if c = pctC && isHexDigitC a && isHexDigitC b then
      Char.ofNat (hexValC a * 16 + hexValC b) :: unquoteChars rest
    else
      c :: unquoteChars (a :: b :: rest)

/-- `urllib.parse.unquote`: decodes `%XX` escapes; malformed escapes are
left untouched.  (Python additionally UTF-8-decodes the resulting bytes;
the model covers the ASCII payloads the claims exchange.) -/
def unquote (s : String) : String :=
  String.mk (unquoteChars s.toList)

/-! ## Percent encoding: `urllib.parse.urlencode` / `quote_plus` -/

def hexDigitUC (n : Nat) : Char :=
  if n < 10 then Char.ofNat (48 + n) else Char.ofNat (55 + n)

def isQuotePlusSafe (c : Char) : Bool :=
  c.isAlphanum || c.toNat = 95 || c.toNat = 46 || c.toNat = 45 || c.toNat = 126

def quotePlusChar (c : Char) : String :=
  if isQuotePlusSafe c then String.singleton c
  else if c.toNat = 32 then String.singleton (Char.ofNat 43)
  else
    let n := c.toNat % 256
    "%" ++ String.singleton (hexDigitUC (n / 16)) ++ String.singleton (hexDigitUC (n % 16))

def quotePlus (s : String) : String :=
  String.join (s.toList.map quotePlusChar)

/-- `urllib.parse.urlencode` over an ordered association list (Python 3
dicts preserve insertion order). -/
def urlencodePairs (ps : List (String × String)) : String :=
  String.intercalate "&" (ps.map (fun kv => quotePlus kv.1 ++ "=" ++ quotePlus kv.2))

/-! ## JSON values and `json.loads` -/

/-- The data model of Python's `json` module, restricted to the value
forms the library exchanges (numbers are integers). -/
inductive Json where
  | null
  | bool (b : Bool)
  | num (n : Int)
  | str (s : String)
  | arr (elems : List Json)
  | obj (fields : List (String × Json))
deriving Repr, Inhabited

mutual

def jsonBeq : Json → Json → Bool
  | .null, .null => true
  | .bool a, .bool b => a == b
  | .num a, .num b => a == b
  | .str a, .str b => a == b
  | .arr a, .arr b => jsonBeqList a b
  | .obj a, .obj b => jsonBeqFields a b
  | _, _ => false

def jsonBeqList : List Json → List Json → Bool
  | [], [] => true
  | a :: as, b :: bs => jsonBeq a b && jsonBeqList as bs
  | _, _ => false

def jsonBeqFields : List (String × Json) → List (String × Json) → Bool
  | [], [] => true
  | a :: as, b :: bs => a.1 == b.1 && jsonBeq a.2 b.2 && jsonBeqFields as bs
  | _, _ => false

end

instance : BEq Json := ⟨jsonBeq⟩

/-- Last binding wins, matching the Python `dict` built by `json.loads`. -/
def jsonGetField (fields : List (String × Json)) (k : String) : Option Json :=
  fields.foldl (fun acc kv => if kv.1 = k then some kv.2 else acc) none

def skipWsChars : List Char → List Char
  | [] => []
  | c :: rest =>
    if c.toNat = 32 || c.toNat = 9 || c.toNat = 10 || c.toNat = 13 then skipWsChars rest
    else c :: rest

/-- Body of a JSON string after the opening quote; escape sequences are
outside the modelled fragment. -/
def parseStringBody : List Char → Option (String × List Char)
  | [] => none
  | c :: rest =>
    if c = dquoteC then some ("", rest)
    else if c = bslashC then none
    else
      match parseStringBody rest with
      | some (s, r) => some (String.singleton c ++ s, r)
      | none => none

def digitsToNat (ds : List Char) : Nat :=
  ds.foldl (fun n c => n * 10 + (c.toNat - 48)) 0

def parseIntTok (cs : List Char) : Option (Int × List Char) :=
  let signed := match cs with
    | c :: rest => if c.toNat = 45 then (true, rest) else (false, cs)
    | [] => (false, ([] : List Char))
  let ds := signed.2.takeWhile Char.isDigit
  let rest := signed.2.dropWhile Char.isDigit
  if ds.isEmpty then none
  else some (if signed.1 then -(digitsToNat ds : Int) else (digitsToNat ds : Int), rest)

mutual

def pJson : Nat → List Char → Option (Json × List Char)
  | 0, _ => none
  | fuel + 1, cs0 =>
    let cs := skipWsChars cs0
    match cs with
    | [] => none
    | c :: rest =>
      if c = dquoteC then
        match parseStringBody rest with
        | some (s, r) => some (.str s, r)
        | none => none
      else if c.toNat = 123 then
        let cs2 := skipWsChars rest
        match cs2 with
        | d :: rest2 =>
          if d.toNat = 125 then some (.obj [], rest2)
          else
            match pObjItems fuel cs2 with
            | some (fs, r) => some (.obj fs, r)
            | none => none
        | [] => none
      else if c.toNat = 91 then
        let cs2 := skipWsChars rest
        match cs2 with
        | d :: rest2 =>
          if d.toNat = 93 then some (.arr [], rest2)
          else
            match pArrItems fuel cs2 with
            | some (xs, r) => some (.arr xs, r)
            | none => none
        | [] => none
      else if isPrefixListB "null".toList cs then some (.null, cs.drop 4)
      else if isPrefixListB "true".toList cs then some (.bool true, cs.drop 4)
      else if isPrefixListB "false".toList cs then some (.bool false, cs.drop 5)
      else
        match parseIntTok cs with
        | some (n, r) => some (.num n, r)
        | none => none

def pArrItems : Nat → List Char → Option (List Json × List Char)
  | 0, _ => none
  | fuel + 1, cs =>
    match pJson fuel cs with
    | none => none
    | some (v, r) =>
      match skipWsChars r with
      | c :: rest =>
        if c.toNat = 44 then
          match pArrItems fuel rest with
          | some (vs, r3) => some (v :: vs, r3)
          | none => none
        else if c.toNat = 93 then some ([v], rest)
        else none
      | [] => none

def pObjItems : Nat → List Char → Option (List (String × Json) × List Char)
  | 0, _ => none
  | fuel + 1, cs =>
    match skipWsChars cs with
    | c :: rest =>
      if c = dquoteC then
        match parseStringBody rest with
        | some (k, r) =>
          match skipWsChars r with
          | d :: rest2 =>
            if d.toNat = 58 then
              match pJson fuel rest2 with
              | some (v, r3) =>
                match skipWsChars r3 with
                | e :: rest3 =>
                  if e.toNat = 44 then
                    match pObjItems fuel rest3 with
                    | some (fs, r5) => some ((k, v) :: fs, r5)
                    | none => none
                  else if e.toNat = 125 then some ([(k, v)], rest3)
                  else none
                | [] => none
              | none => none
            else none
          | [] => none
        | none => none
      else none
    | [] => none

end

/-- `json.loads`: parse a complete document, allowing trailing whitespace
only.  `none` models a raised `json.JSONDecodeError`. -/
def jsonParse (s : String) : Option Json :=
  match pJson (s.length + 1) s.toList with
  | some (v, rest) => if (skipWsChars rest).isEmpty then some v else none
  | none => none

/-! ## Raised Python exceptions -/

/-- The exceptions the embedded code can raise.  `httpError` is
`urllib.error.HTTPError` (code, reason phrase, body bytes); the others
carry no payload beyond an optional message.  `redirectFollowNotModelled`
is not a Python exception: it marks the default opener receiving a
non-307 3xx answer, whose automatic redirect-following the model does not
cover (no claim exercises it; theorems over arbitrary transports exclude
it by hypothesis). -/
inductive PyErr where
  | httpError (code : Nat) (msg : String) (details : String)
  | keyError
  | typeError
  | valueError (msg : String)
  | jsonDecodeError
  | attributeError
  | gzipError
  | redirectFollowNotModelled
deriving Repr, DecidableEq

/-- Python subscripting `value[key]` with a string key: a field lookup on
a dict (raising `KeyError` when absent), a `TypeError` on any other
JSON-decoded value. -/
def jIndexStr : Json → String → Except PyErr Json
  | .obj fs, k =>
    match jsonGetField fs k with
    | some v => .ok v
    | none => .error .keyError
  | _, _ => .error .typeError

/-! ## Python renderings -/

def lbS : String := String.singleton (Char.ofNat 123)  -- left brace
def rbS : String := String.singleton (Char.ofNat 125)  -- right brace

/-- `str()` of a JSON-decoded value (used when a non-string token value is
stored and formatted; containers are approximated, no claim reaches
them). -/
def pyStr : Json → String
  | .null => "None"
  | .bool true => "True"
  | .bool false => "False"
  | .num n => toString n
  | .str s => s
  | .arr _ => "[...]"
  | .obj _ => lbS ++ "..." ++ rbS

def jsonEscapeChar (c : Char) : String :=
  if c = dquoteC || c = bslashC then String.singleton bslashC ++ String.singleton c
  else String.singleton c

def jsonQuoteStr (s : String) : String :=
  String.singleton dquoteC ++ String.join (s.toList.map jsonEscapeChar) ++ String.singleton dquoteC

mutual

/-- `json.dumps` with its default separators (ASCII printable fragment). -/
def jsonDumps : Json → String
  | .null => "null"
  | .bool true => "true"
  | .bool false => "false"
  | .num n => toString n
  | .str s => jsonQuoteStr s
  | .arr xs => "[" ++ jsonDumpsList xs ++ "]"
  | .obj fs => lbS ++ jsonDumpsFields fs ++ rbS

def jsonDumpsList : List Json → String
  | [] => ""
  | [x] => jsonDumps x
  | x :: y :: xs => jsonDumps x ++ ", " ++ jsonDumpsList (y :: xs)

def jsonDumpsFields : List (String × Json) → String
  | [] => ""
  | [kv] => jsonQuoteStr kv.1 ++ ": " ++ jsonDumps kv.2
  | kv :: kv2 :: rest =>
    jsonQuoteStr kv.1 ++ ": " ++ jsonDumps kv.2 ++ ", " ++ jsonDumpsFields (kv2 :: rest)

end

def hexDigitLC (n : Nat) : Char :=
  if n < 10 then Char.ofNat (48 + n) else Char.ofNat (87 + n)

def pyByteEsc (q : Char) (c : Char) : String :=
  if c = bslashC then String.singleton bslashC ++ String.singleton bslashC
  else if c = q then String.singleton bslashC ++ String.singleton q
  else if c.toNat = 9 then String.singleton bslashC ++ "t"
  else if c.toNat = 10 then String.singleton bslashC ++ "n"
  else if c.toNat = 13 then String.singleton bslashC ++ "r"
  else if 32 ≤ c.toNat && c.toNat < 127 then String.singleton c
  else
    let n := c.toNat % 256
    String.singleton bslashC ++ "x" ++
      String.singleton (hexDigitLC (n / 16)) ++ String.singleton (hexDigitLC (n % 16))

/-- CPython `repr` of a `bytes` object (as `str.format` renders it): a
`b'...'` literal, single-quoted unless the content holds a single quote
and no double quote. -/
def pyBytesRepr (s : String) : String :=
  let q := if s.toList.contains squoteC && !(s.toList.contains dquoteC) then dquoteC else squoteC
  "b" ++ String.singleton q ++ String.join (s.toList.map (pyByteEsc q)) ++ String.singleton q

/-- The message built in every `except urllib.error.HTTPError` clause:
`'{msg}: {details}'.format(msg=e.msg, details=e.read())` — `e.read()` is
`bytes`, so `format` renders its `b'...'` repr. -/
def httpErrorText (msg details : String) : String :=
  msg ++ ": " ++ pyBytesRepr details

/-! ## Requests, wire responses, transport -/

/-- A `urllib.request.Request`: url, headers (in insertion order), body
data, HTTP method. -/
structure Request where
  url : String
  headers : List (String × String)
  data : Option String
  method : String
deriving Repr, DecidableEq

/-- What the remote end answers to one request: status code, reason
phrase, optional `Location` header, body bytes. -/
structure WireResp where
  code : Nat
  msg : String
  location : Option String
  body : String
deriving Repr, DecidableEq

/-- The network oracle standing for `urllib.request.urlopen`'s socket
layer. -/
def Transport : Type := Request → WireResp

/-- The gzip oracle standing for
`gzip.GzipFile(fileobj=BytesIO(data)).read()`; `none` models the raised
`OSError`/`BadGzipFile`. -/
def Gunzip : Type := String → Option String

/-- `urllib.request.urlopen` under the default opener: 2xx responses are
returned, non-2xx/3xx raise `HTTPError` whose body is the error payload.
Non-307 3xx answers would be auto-followed; see `PyErr`. -/
def urlopenDefault (tr : Transport) (req : Request) : Except PyErr (Nat × String) :=
  let w := tr req
  if 200 ≤ w.code ∧ w.code < 300 then .ok (w.code, w.body)
  else if 300 ≤ w.code ∧ w.code < 400 then .error .redirectFollowNotModelled
  else .error (.httpError w.code w.msg w.body)

/-- What `urlopen` yields when the `NoRedirectHandler` opener is
installed: a 307 answer becomes the plain dict
`{'code': 307, 'location': <Location header or None>}` (both branches of
`NoRedirectHandler.http_response` produce a dict with a `location` key);
anything else goes through `HTTPErrorProcessor.http_response` as usual. -/
inductive NoRedirResp where
  | dictResp (code : Nat) (location : Option String)
  | respObj (code : Nat) (body : String)
deriving Repr, DecidableEq

def urlopenNoRedirect (tr : Transport) (req : Request) : Except PyErr NoRedirResp :=
  let w := tr req
  if w.code = 307 then .ok (.dictResp 307 w.location)
  else if 200 ≤ w.code ∧ w.code < 300 then .ok (.respObj w.code w.body)
  else if 300 ≤ w.code ∧ w.code < 400 then .error .redirectFollowNotModelled
  else .error (.httpError w.code w.msg w.body)

/-! ## The client and its results -/

/-- The mutable attributes an `AdvertisingApi` instance carries after
`__init__` (construction itself — the region lookup — is outside the
claims). -/
structure Client where
  client_id : String
  client_secret : String
  access_token : Option String
  refresh_token : Option String
  profile_id : Option String
  endpoint : String
  token_url : String
  api_version : String
  user_agent : String
deriving Repr

/-- The `response` field of a result dict: a raw body string for ordinary
operations, a parsed JSON structure for downloaded artifacts. -/
inductive RespVal where
  | s (text : String)
  | j (val : Json)
deriving Repr, Inhabited

/-- The `{'success': ..., 'code': ..., 'response': ...}` dict every
operation builds. -/
structure ApiResult where
  success : Bool
  code : Nat
  response : RespVal
deriving Repr, Inhabited

/-- An operation's outcome in the model: the returned dict (or the raised
exception) together with the requests issued, in order. -/
def OpOutcome : Type := Except PyErr ApiResult × List Request

/-! ## Header and request construction -/

/-- The three headers `_operation` and `_download` always build:
`Authorization: Bearer <token>`, `Content-Type`, `User-Agent`.  The token
argument mirrors `'Bearer {}'.format(...)` applied to a string token. -/
def baseHeaders (c : Client) (tok : String) : List (String × String) :=
  [("Authorization", "Bearer " ++ tok),
   ("Content-Type", "application/json"),
   ("User-Agent", c.user_agent)]

/-- `'Bearer {}'.format(self._access_token)` in `_download`, where the
token may be `None`. -/
def pyFormatOptStr : Option String → String
  | some s => s
  | none => "None"

def operationUrl (c : Client) (interface : String) (query : String) : String :=
  "https://" ++ c.endpoint ++ "/" ++ c.api_version ++ "/" ++ interface ++ query

/-- `'?{}'.format(urllib.parse.urlencode(params))` for GET, where params
is the JSON-like dict callers pass; `urlencode` applies `str()` to the
values and raises `TypeError` on a non-mapping. -/
def queryOfParams : Option Json → Except PyErr String
  | none => .ok ""
  | some (.obj fs) => .ok ("?" ++ urlencodePairs (fs.map (fun kv => (kv.1, pyStr kv.2))))
  | some _ => .error .typeError

/-- `json.dumps(params).encode('utf-8')` for non-GET methods. -/
def dataOfParams : Option Json → Option String
  | none => none
  | some j => some (jsonDumps j)

/-- The headers `_operation` sends: the scope header is appended exactly
when `profile_id` is set and non-empty. -/
def operationHeaders (c : Client) (tok : String) : List (String × String) :=
  baseHeaders c tok ++
    (match c.profile_id with
     | some p => if p ≠ "" then [("Amazon-Advertising-API-Scope", p)] else []
     | none => [])

/-- The request `_operation` builds once its preconditions passed. -/
def operationRequest (c : Client) (tok : String) (interface : String)
    (params : Option Json) (method : String) : Except PyErr Request :=
  if method = "GET" then
    match queryOfParams params with
    | .ok q => .ok ⟨operationUrl c interface q, operationHeaders c tok, none, "GET"⟩
    | .error e => .error e
  else
    .ok ⟨operationUrl c interface "", operationHeaders c tok, dataOfParams params, method⟩

/-- The `try: urlopen ... except HTTPError` block shared by `_operation`
(and `do_refresh_token`): a 2xx answer becomes a success dict holding the
decoded body, an `HTTPError` becomes a failure dict holding the code and
the formatted reason/body message. -/
def sendAndWrap (tr : Transport) (req : Request) : OpOutcome :=
  match urlopenDefault tr req with
  | .ok (code, body) => (.ok ⟨true, code, .s body⟩, [req])
  | .error (.httpError ec em ed) => (.ok ⟨false, ec, .s (httpErrorText em ed)⟩, [req])
  | .error e => (.error e, [req])

/-! ## `_operation` -/

/-- `AdvertisingApi._operation`. -/
def _operation (c : Client) (tr : Transport) (interface : String)
    (params : Option Json := none) (method : String := "GET") : OpOutcome :=
  match c.access_token with
  | none => (.ok ⟨false, 0, .s "access_token is empty."⟩, [])
  | some tok =>
    let profileOk := match c.profile_id with
      | some p => p ≠ ""
      | none => false
    if !profileOk && !(strContains interface "profiles") then
      (.ok ⟨false, 0, .s "profile_id is empty."⟩, [])
    else
      match operationRequest c tok interface params method with
      | .ok req => sendAndWrap tr req
      | .error e => (.error e, [])

/-! ## `do_refresh_token` -/

/-- The in-place percent-decoding `do_refresh_token` performs before the
token request: `refresh_token` is always unquoted, `_access_token` only
when truthy (set and non-empty). -/
def refreshDecoded (c : Client) : Client :=
  { c with
    access_token := match c.access_token with
      | some a => if a = "" then some a else some (unquote a)
      | none => none,
    refresh_token := c.refresh_token.map unquote }

def refreshParams (c : Client) : List (String × String) :=
  [("grant_type", "refresh_token"),
   ("refresh_token", c.refresh_token.getD ""),
   ("client_id", c.client_id),
   ("client_secret", c.client_secret)]

/-- The token request: bare `Request` with the form-encoded body (a
request carrying data defaults to POST). -/
def refreshRequest (c : Client) : Request :=
  ⟨"https://" ++ c.token_url, [], some (urlencodePairs (refreshParams c)), "POST"⟩

/-- `AdvertisingApi.do_refresh_token`.  Returns the result dict (or the
raised exception), the client's token state afterwards, and the requests
issued.  The `'access_token' in response` test is Python's substring
check on the raw body; a stored token value is kept as its `str()` image
(identity for the string tokens the API returns). -/
def do_refresh_token (c : Client) (tr : Transport) :
    Except PyErr ApiResult × Client × List Request :=
  match c.refresh_token with
  | none => (.ok ⟨false, 0, .s "refresh_token is empty."⟩, c, [])
  | some _ =>
    let c1 := refreshDecoded c
    let req := refreshRequest c1
    match urlopenDefault tr req with
    | .ok (code, body) =>
      if strContains body "access_token" then
        match jsonParse body with
        | none => (.error .jsonDecodeError, c1, [req])
        | some j =>
          match jIndexStr j "access_token" with
          | .error e => (.error e, c1, [req])
          | .ok v =>
            let newTok := pyStr v
            (.ok ⟨true, code, .s newTok⟩, { c1 with access_token := some newTok }, [req])
      else
        (.ok ⟨false, code, .s "access_token not in response."⟩, c1, [req])
    | .error (.httpError ec em ed) =>
      (.ok ⟨false, ec, .s (httpErrorText em ed)⟩, c1, [req])
    | .error e => (.error e, c1, [req])

/-! ## `_download` -/

/-- `urllib.request.Request` accepts only URLs with a scheme; anything
else (including the `str()` image of `None`) raises
`ValueError('unknown url type: ...')` at construction. -/
def isHttpUrl (s : String) : Bool :=
  isPrefixListB "http://".toList s.toList || isPrefixListB "https://".toList s.toList

def urlTypeErrorMsg (rendered : String) : String :=
  "unknown url type: " ++ sq ++ rendered ++ sq

/-- The authenticated first download request: same header construction as
`_operation`, except that the token is formatted even when `None` and the
scope header is added whenever `profile_id` is not `None`. -/
def downloadRequest1 (c : Client) (url : String) : Request :=
  ⟨url,
   [("Authorization", "Bearer " ++ pyFormatOptStr c.access_token),
    ("Content-Type", "application/json"),
    ("User-Agent", c.user_agent),
    ("Amazon-Advertising-API-Scope", c.profile_id.getD "")],
   none, "GET"⟩

/-- The second, unauthenticated GET straight to the redirect target. -/
def downloadRequest2 (url : String) : Request :=
  ⟨url, [], none, "GET"⟩

/-- `AdvertisingApi._download`.  `location` is whatever value the status
JSON carried.  Both `urlopen` calls run under the installed
`NoRedirectHandler` opener and inside one `except HTTPError` clause.  Two
branches reach attribute errors of the source itself: reading `.code`
off the handler's dict (redirect without a `Location` header), and
`res.read()` on a dict if the second fetch is also a 307. -/
def _download (c : Client) (tr : Transport) (gz : Gunzip) (location : Json) : OpOutcome :=
  match c.profile_id with
  | none => (.error (.valueError "Invalid profile Id."), [])
  | some _ =>
    match location with
    | .str url =>
      if isHttpUrl url then
        let req := downloadRequest1 c url
        match urlopenNoRedirect tr req with
        | .ok (.dictResp _ locHdr) =>
          match locHdr with
          | some l2 =>
            if isHttpUrl l2 then
              let req2 := downloadRequest2 l2
              match urlopenNoRedirect tr req2 with
              | .ok (.respObj c2 body) =>
                match gz body with
                | some plain =>
                  match jsonParse plain with
                  | some payload => (.ok ⟨true, c2, .j payload⟩, [req, req2])
                  | none => (.error .jsonDecodeError, [req, req2])
                | none => (.error .gzipError, [req, req2])
              | .ok (.dictResp _ _) => (.error .attributeError, [req, req2])
              | .error (.httpError ec em ed) =>
                (.ok ⟨false, ec, .s (httpErrorText em ed)⟩, [req, req2])
              | .error e => (.error e, [req, req2])
            else (.error (.valueError (urlTypeErrorMsg l2)), [req])
          | none => (.error .attributeError, [req])
        | .ok (.respObj code _) =>
          -- `'location' in <response object>` iterates the body's byte
          -- lines, never equal to a `str`: always False on Python 3.
          (.ok ⟨false, code, .s "Location not found."⟩, [req])
        | .error (.httpError ec em ed) =>
          (.ok ⟨false, ec, .s (httpErrorText em ed)⟩, [req])
        | .error e => (.error e, [req])
      else (.error (.valueError (urlTypeErrorMsg url)), [])
    | other => (.error (.valueError (urlTypeErrorMsg (pyStr other))), [])

/-! ## Report and snapshot retrieval -/

/-- `json.loads` applied to a result dict's `response` field. -/
def loadsResponse : RespVal → Except PyErr Json
  | .s text =>
    match jsonParse text with
    | some j => .ok j
    | none => .error .jsonDecodeError
  | .j _ => .error .typeError

/-- Shared body of `get_report`/`get_snapshot` (the source duplicates it
verbatim for the two interfaces): parse the status response, download on
`SUCCESS` (the source parses the response a second time to read the
location), otherwise hand the status result back unchanged. -/
def statusThenDownload (c : Client) (tr : Transport) (gz : Gunzip)
    (interface : String) : OpOutcome :=
  match _operation c tr interface with
  | (.error e, t1) => (.error e, t1)
  | (.ok res, t1) =>
    match loadsResponse res.response with
    | .error e => (.error e, t1)
    | .ok j =>
      match jIndexStr j "status" with
      | .error e => (.error e, t1)
      | .ok sv =>
        if jsonBeq sv (.str "SUCCESS") then
          match loadsResponse res.response with
          | .error e => (.error e, t1)
          | .ok j2 =>
            match jIndexStr j2 "location" with
            | .error e => (.error e, t1)
            | .ok loc =>
              match _download c tr gz loc with
              | (r2, t2) => (r2, t1 ++ t2)
        else (.ok res, t1)

/-- `AdvertisingApi.get_report`. -/
def get_report (c : Client) (tr : Transport) (gz : Gunzip) (report_id : String) : OpOutcome :=
  statusThenDownload c tr gz ("reports/" ++ report_id)

/-- `AdvertisingApi.get_snapshot`. -/
def get_snapshot (c : Client) (tr : Transport) (gz : Gunzip) (snapshot_id : String) : OpOutcome :=
  statusThenDownload c tr gz ("snapshots/" ++ snapshot_id)

/-! ## Thin resource wrappers (the representatives the claims touch) -/

def get_profiles (c : Client) (tr : Transport) : OpOutcome :=
  _operation c tr "profiles"

def get_profile (c : Client) (tr : Transport) (profile_id : String) : OpOutcome :=
  _operation c tr ("profiles/" ++ profile_id)

def list_campaigns (c : Client) (tr : Transport) (data : Option Json := none) : OpOutcome :=
  _operation c tr "campaigns" data

def get_campaign (c : Client) (tr : Transport) (campaign_id : String) : OpOutcome :=
  _operation c tr ("campaigns/" ++ campaign_id)

def create_campaigns (c : Client) (tr : Transport) (data : Json) : OpOutcome :=
  _operation c tr "campaigns" (some data) "POST"

def archive_campaign (c : Client) (tr : Transport) (campaign_id : String) : OpOutcome :=
  _operation c tr ("campaigns/" ++ campaign_id) none "DELETE"

/-- `request_report`: with neither a record type nor a report id the
method falls off its `if/elif` and returns `None`. -/
def request_report (c : Client) (tr : Transport)
    (record_type report_id : Option String) (data : Option Json := none) :
    Option OpOutcome :=
  match record_type with
  | some rt => some (_operation c tr (rt ++ "/report") data "POST")
  | none =>
    match report_id with
    | some rid => some (_operation c tr ("reports/" ++ rid))
    | none => none

/-- `request_snapshot`: same shape as `request_report`, except the
snapshot-id branch forwards `data` to the GET. -/
def request_snapshot (c : Client) (tr : Transport)
    (record_type snapshot_id : Option String) (data : Option Json := none) :
    Option OpOutcome :=
  match record_type with
  | some rt => some (_operation c tr (rt ++ "/snapshot") data "POST")
  | none =>
    match snapshot_id with
    | some sid => some (_operation c tr ("snapshots/" ++ sid) data)
    | none => none

/-- `archive_product_ads`: the body is `pass`, so the call returns
`None` whatever the client state. -/
def archive_product_ads (_c : Client) : Option OpOutcome :=
  none

/-! ## Witness fixtures (concrete clients, transports, codecs) -/

def baseClient : Client :=
  { client_id := "CID", client_secret := "SEC", access_token := some "TOK",
    refresh_token := some "RTOK", profile_id := some "PROF",
    endpoint := "host", token_url := "thost", api_version := "v2",
    user_agent := "UA" }

def trAny : Transport := fun _ => ⟨200, "OK", none, "x"⟩

def gzNone : Gunzip := fun _ => none

def statusBodyW : String :=
  "\x7b\"status\": \"SUCCESS\", \"location\": \"https://loc1/a\"\x7d"

def trArtifact : Transport := fun r =>
  if r.url = "https://host/v2/reports/RID" then ⟨200, "OK", none, statusBodyW⟩
  else if r.url = "https://host/v2/snapshots/SID" then ⟨200, "OK", none, statusBodyW⟩
  else if r.url = "https://loc1/a" then ⟨307, "Temporary Redirect", some "https://loc2/b", ""⟩
  else ⟨206, "Partial Content", none, "GZ"⟩

def gzArtifact : Gunzip := fun s => if s = "GZ" then some "\x7b\"a\": 1\x7d" else none

def trSubstringNoField : Transport :=
  fun _ => ⟨200, "OK", none, "\x7b\"x\": \"access_token\"\x7d"⟩

def trTokenOk : Transport :=
  fun _ => ⟨200, "OK", none, "\x7b\"access_token\": \"T\"\x7d"⟩

def trNoToken : Transport :=
  fun _ => ⟨200, "OK", none, "\x7b\"expires\": 3600\x7d"⟩

def trHttp400 : Transport := fun _ => ⟨400, "Bad Request", none, "bad_request"⟩

def trLocNull : Transport :=
  fun _ => ⟨200, "OK", none, "\x7b\"status\": \"SUCCESS\", \"location\": null\x7d"⟩

def trLocAbsent : Transport :=
  fun _ => ⟨200, "OK", none, "\x7b\"status\": \"SUCCESS\"\x7d"⟩

def cEncodedTokens : Client :=
  { baseClient with access_token := some "a%20b", refresh_token := some "r%2Fc" }

def cNoAccess : Client := { baseClient with access_token := none }

def cNoProfile : Client := { baseClient with profile_id := none }

def cEmptyAccess : Client := { baseClient with access_token := some "" }

def cNoRefresh : Client := { baseClient with refresh_token := none }

/-- The request `_operation` builds for a parameterless GET. -/
def getRequest (c : Client) (tok : String) (interface : String) : Request :=
  ⟨operationUrl c interface "", operationHeaders c tok, none, "GET"⟩

/-! ## Helper lemmas -/

theorem operationRequest_get (c : Client) (tok interface : String) :
    operationRequest c tok interface none "GET" = .ok (getRequest c tok interface) := rfl

theorem sendAndWrap_of_2xx (tr : Transport) (req : Request) (w : WireResp)
    (hw : tr req = w) (h2 : 200 ≤ w.code) (h3 : w.code < 300) :
    sendAndWrap tr req = (.ok ⟨true, w.code, .s w.body⟩, [req]) := by
  unfold sendAndWrap urlopenDefault
  rw [hw, if_pos ⟨h2, h3⟩]

theorem sendAndWrap_of_httpError (tr : Transport) (req : Request) (w : WireResp)
    (hw : tr req = w) (h : w.code < 200 ∨ 400 ≤ w.code) :
    sendAndWrap tr req = (.ok ⟨false, w.code, .s (httpErrorText w.msg w.body)⟩, [req]) := by
  unfold sendAndWrap urlopenDefault
  rw [hw, if_neg (by omega), if_neg (by omega)]

theorem _operation_no_access (c : Client) (tr : Transport) (interface : String)
    (params : Option Json) (method : String) (h : c.access_token = none) :
    _operation c tr interface params method =
      (.ok ⟨false, 0, .s "access_token is empty."⟩, []) := by
  unfold _operation
  rw [h]

theorem _operation_sends (c : Client) (tr : Transport) (interface : String)
    (params : Option Json) (method : String) (tok p : String)
    (ht : c.access_token = some tok) (hp : c.profile_id = some p) (hpne : p ≠ "")
    (req : Request) (hreq : operationRequest c tok interface params method = .ok req) :
    _operation c tr interface params method = sendAndWrap tr req := by
  unfold _operation
  rw [ht, hp]
  simp [hpne, hreq]

theorem _operation_profile_fail (c : Client) (tr : Transport) (interface : String)
    (params : Option Json) (method : String) (tok : String)
    (ht : c.access_token = some tok)
    (hp : c.profile_id = none ∨ c.profile_id = some "")
    (hni : strContains interface "profiles" = false) :
    _operation c tr interface params method =
      (.ok ⟨false, 0, .s "profile_id is empty."⟩, []) := by
  unfold _operation
  rw [ht]
  rcases hp with hp | hp <;> rw [hp] <;> simp [hni]

theorem _operation_profiles_proceeds (c : Client) (tr : Transport) (interface : String)
    (params : Option Json) (method : String) (tok : String)
    (ht : c.access_token = some tok)
    (hp : c.profile_id = none ∨ c.profile_id = some "")
    (hi : strContains interface "profiles" = true)
    (req : Request) (hreq : operationRequest c tok interface params method = .ok req) :
    _operation c tr interface params method = sendAndWrap tr req := by
  unfold _operation
  rw [ht]
  rcases hp with hp | hp <;> rw [hp] <;> simp [hi, hreq]

theorem do_refresh_token_success (c : Client) (tr : Transport) (rt : String)
    (hr : c.refresh_token = some rt) (w : WireResp)
    (hw : tr (refreshRequest (refreshDecoded c)) = w)
    (h2 : 200 ≤ w.code) (h3 : w.code < 300)
    (hsub : strContains w.body "access_token" = true)
    (j : Json) (hparse : jsonParse w.body = some j)
    (t : String) (hidx : jIndexStr j "access_token" = .ok (.str t)) :
    do_refresh_token c tr =
      (.ok ⟨true, w.code, .s t⟩,
       { refreshDecoded c with access_token := some t },
       [refreshRequest (refreshDecoded c)]) := by
  unfold do_refresh_token urlopenDefault
  rw [hr]
  simp only [hw, if_pos (And.intro h2 h3), hsub, hparse, hidx]
  rfl

theorem do_refresh_token_no_substring (c : Client) (tr : Transport) (rt : String)
    (hr : c.refresh_token = some rt) (w : WireResp)
    (hw : tr (refreshRequest (refreshDecoded c)) = w)
    (h2 : 200 ≤ w.code) (h3 : w.code < 300)
    (hsub : strContains w.body "access_token" = false) :
    do_refresh_token c tr =
      (.ok ⟨false, w.code, .s "access_token not in response."⟩,
       refreshDecoded c, [refreshRequest (refreshDecoded c)]) := by
  unfold do_refresh_token urlopenDefault
  rw [hr]
  simp only [hw, if_pos (And.intro h2 h3), hsub]
  rfl

theorem do_refresh_token_http_error (c : Client) (tr : Transport) (rt : String)
    (hr : c.refresh_token = some rt) (w : WireResp)
    (hw : tr (refreshRequest (refreshDecoded c)) = w)
    (hcode : w.code < 200 ∨ 400 ≤ w.code) :
    do_refresh_token c tr =
      (.ok ⟨false, w.code, .s (httpErrorText w.msg w.body)⟩,
       refreshDecoded c, [refreshRequest (refreshDecoded c)]) := by
  unfold do_refresh_token urlopenDefault
  rw [hr]
  simp only [hw, if_neg (by omega : ¬(200 ≤ w.code ∧ w.code < 300)),
    if_neg (by omega : ¬(300 ≤ w.code ∧ w.code < 400))]

theorem _download_success (c : Client) (tr : Transport) (gz : Gunzip)
    (p L : String) (hp : c.profile_id = some p) (hL : isHttpUrl L = true)
    (w1 : WireResp) (hw1 : tr (downloadRequest1 c L) = w1) (h307 : w1.code = 307)
    (L2 : String) (hloc : w1.location = some L2) (hL2 : isHttpUrl L2 = true)
    (w2 : WireResp) (hw2 : tr (downloadRequest2 L2) = w2)
    (h2 : 200 ≤ w2.code) (h3 : w2.code < 300)
    (plain : String) (hgz : gz w2.body = some plain)
    (payload : Json) (hpl : jsonParse plain = some payload) :
    _download c tr gz (.str L) =
      (.ok ⟨true, w2.code, .j payload⟩,
       [downloadRequest1 c L, downloadRequest2 L2]) := by
  unfold _download urlopenNoRedirect
  rw [hp]
  simp only [hL, if_pos, hw1, h307, if_pos rfl, hloc, hL2, hw2,
    if_neg (by omega : ¬w2.code = 307), if_pos (And.intro h2 h3), hgz, hpl]

theorem _download_null_location (c : Client) (tr : Transport) (gz : Gunzip)
    (p : String) (hp : c.profile_id = some p) :
    _download c tr gz .null =
      (.error (.valueError (urlTypeErrorMsg "None")), []) := by
  unfold _download
  rw [hp]
  rfl

theorem statusThenDownload_success (c : Client) (tr : Transport) (gz : Gunzip)
    (interface tok p : String)
    (ht : c.access_token = some tok) (hp : c.profile_id = some p) (hpne : p ≠ "")
    (w1 : WireResp) (hw1 : tr (getRequest c tok interface) = w1)
    (h2 : 200 ≤ w1.code) (h3 : w1.code < 300)
    (j : Json) (hparse : jsonParse w1.body = some j)
    (hstatus : jIndexStr j "status" = .ok (.str "SUCCESS"))
    (loc : Json) (hloc : jIndexStr j "location" = .ok loc) :
    statusThenDownload c tr gz interface =
      ((_download c tr gz loc).1,
       getRequest c tok interface :: (_download c tr gz loc).2) := by
  unfold statusThenDownload
  rw [_operation_sends c tr interface none "GET" tok p ht hp hpne _
        (operationRequest_get c tok interface),
      sendAndWrap_of_2xx tr _ w1 hw1 h2 h3]
  simp only [loadsResponse, hparse, hstatus, hloc, jsonBeq, beq_self_eq_true, if_true]
  rfl

theorem statusThenDownload_status_not_success (c : Client) (tr : Transport) (gz : Gunzip)
    (interface tok p : String)
    (ht : c.access_token = some tok) (hp : c.profile_id = some p) (hpne : p ≠ "")
    (w1 : WireResp) (hw1 : tr (getRequest c tok interface) = w1)
    (h2 : 200 ≤ w1.code) (h3 : w1.code < 300)
    (j : Json) (hparse : jsonParse w1.body = some j)
    (sv : Json) (hstatus : jIndexStr j "status" = .ok sv)
    (hne : jsonBeq sv (.str "SUCCESS") = false) :
    statusThenDownload c tr gz interface =
      (.ok ⟨true, w1.code, .s w1.body⟩, [getRequest c tok interface]) := by
  unfold statusThenDownload
  rw [_operation_sends c tr interface none "GET" tok p ht hp hpne _
        (operationRequest_get c tok interface),
      sendAndWrap_of_2xx tr _ w1 hw1 h2 h3]
  simp only [loadsResponse, hparse, hstatus, hne, Bool.false_eq_true, if_false]

theorem statusThenDownload_location_key_error (c : Client) (tr : Transport) (gz : Gunzip)
    (interface tok p : String)
    (ht : c.access_token = some tok) (hp : c.profile_id = some p) (hpne : p ≠ "")
    (w1 : WireResp) (hw1 : tr (getRequest c tok interface) = w1)
    (h2 : 200 ≤ w1.code) (h3 : w1.code < 300)
    (j : Json) (hparse : jsonParse w1.body = some j)
    (hstatus : jIndexStr j "status" = .ok (.str "SUCCESS"))
    (hloc : jIndexStr j "location" = .error .keyError) :
    statusThenDownload c tr gz interface =
      (.error .keyError, [getRequest c tok interface]) := by
  unfold statusThenDownload
  rw [_operation_sends c tr interface none "GET" tok p ht hp hpne _
        (operationRequest_get c tok interface),
      sendAndWrap_of_2xx tr _ w1 hw1 h2 h3]
  simp only [loadsResponse, hparse, hstatus, hloc, jsonBeq, beq_self_eq_true, if_true]

theorem statusThenDownload_no_access (c : Client) (tr : Transport) (gz : Gunzip)
    (interface : String) (h : c.access_token = none) :
    statusThenDownload c tr gz interface = (.error .jsonDecodeError, []) := by
  unfold statusThenDownload
  rw [_operation_no_access c tr interface none "GET" h]
  rfl

theorem statusThenDownload_no_profile (c : Client) (tr : Transport) (gz : Gunzip)
    (interface : String) (tok : String) (ht : c.access_token = some tok)
    (hp : c.profile_id = none ∨ c.profile_id = some "")
    (hni : strContains interface "profiles" = false) :
    statusThenDownload c tr gz interface = (.error .jsonDecodeError, []) := by
  unfold statusThenDownload
  rw [_operation_profile_fail c tr interface none "GET" tok ht hp hni]
  rfl

/-! ## Claim theorems -/

/-- C1: for every report or snapshot download whose status check answers
`\x7b"status":"SUCCESS","location":L\x7d` with `L` a URL, where the GET to `L`
answers a 307 redirect carrying a `Location` header to a second URL
serving gzip-compressed JSON, the operation does not follow the 307
automatically: it captures the redirect target, issues a second,
unauthenticated GET straight to it, and returns success with the second
response's status code and the decompressed, decoded, JSON-parsed
payload. -/
theorem C1_download_intercepts_redirect
    (c : Client) (tr : Transport) (gz : Gunzip)
    (rid sid tok p : String)
    (ht : c.access_token = some tok) (hp : c.profile_id = some p) (hpne : p ≠ "")
    (m1 : String) (lo1 : Option String) (statusBody : String)
    (hr1 : tr (getRequest c tok ("reports/" ++ rid)) = ⟨200, m1, lo1, statusBody⟩)
    (hs1 : tr (getRequest c tok ("snapshots/" ++ sid)) = ⟨200, m1, lo1, statusBody⟩)
    (j : Json) (hparse : jsonParse statusBody = some j)
    (hstatus : jIndexStr j "status" = .ok (.str "SUCCESS"))
    (L : String) (hloc : jIndexStr j "location" = .ok (.str L)) (hL : isHttpUrl L = true)
    (m2 b2 L2 : String)
    (hw2 : tr (downloadRequest1 c L) = ⟨307, m2, some L2, b2⟩) (hL2 : isHttpUrl L2 = true)
    (c2 : Nat) (m3 : String) (lo3 : Option String) (gzBody : String)
    (hw3 : tr (downloadRequest2 L2) = ⟨c2, m3, lo3, gzBody⟩)
    (h2 : 200 ≤ c2) (h3 : c2 < 300)
    (plain : String) (hgz : gz gzBody = some plain)
    (payload : Json) (hpl : jsonParse plain = some payload) :
    get_report c tr gz rid =
      (.ok ⟨true, c2, .j payload⟩,
       [getRequest c tok ("reports/" ++ rid), downloadRequest1 c L, downloadRequest2 L2]) ∧
    get_snapshot c tr gz sid =
      (.ok ⟨true, c2, .j payload⟩,
       [getRequest c tok ("snapshots/" ++ sid), downloadRequest1 c L, downloadRequest2 L2]) ∧
    (downloadRequest2 L2).headers = [] := by
  have hdl := _download_success c tr gz p L hp hL _ hw2 rfl L2 rfl hL2 _ hw3 h2 h3
    plain hgz payload hpl
  refine ⟨?_, ?_, rfl⟩
  · unfold get_report
    rw [statusThenDownload_success c tr gz _ tok p ht hp hpne _ hr1 (le_refl 200)
      (by norm_num : (200:Nat) < 300) j hparse hstatus _ hloc, hdl]
  · unfold get_snapshot
    rw [statusThenDownload_success c tr gz _ tok p ht hp hpne _ hs1 (le_refl 200)
      (by norm_num : (200:Nat) < 300) j hparse hstatus _ hloc, hdl]

/-- C1 witness: the redirect-interception theorem evaluated on a concrete
client, transport and gzip codec (second response code 206). -/
theorem C1_download_intercepts_redirect_witness :
    get_report baseClient trArtifact gzArtifact "RID" =
      (.ok ⟨true, 206, .j (.obj [("a", .num 1)])⟩,
       [getRequest baseClient "TOK" ("reports/" ++ "RID"),
        downloadRequest1 baseClient "https://loc1/a",
        downloadRequest2 "https://loc2/b"]) ∧
    get_snapshot baseClient trArtifact gzArtifact "SID" =
      (.ok ⟨true, 206, .j (.obj [("a", .num 1)])⟩,
       [getRequest baseClient "TOK" ("snapshots/" ++ "SID"),
        downloadRequest1 baseClient "https://loc1/a",
        downloadRequest2 "https://loc2/b"]) ∧
    (downloadRequest2 "https://loc2/b").headers = [] :=
  C1_download_intercepts_redirect baseClient trArtifact gzArtifact
    "RID" "SID" "TOK" "PROF" rfl rfl (by decide)
    "OK" none statusBodyW rfl rfl
    (.obj [("status", .str "SUCCESS"), ("location", .str "https://loc1/a")]) rfl rfl
    "https://loc1/a" rfl rfl
    "Temporary Redirect" "" "https://loc2/b" rfl rfl
    206 "Partial Content" none "GZ" rfl (by norm_num) (by norm_num)
    "\x7b\"a\": 1\x7d" rfl
    (.obj [("a", .num 1)]) rfl

/-- C2 counterexample: with a 200 body `\x7b"x": "access_token"\x7d` — valid
JSON whose `access_token` field is absent but whose text contains the
substring — `do_refresh_token` raises `KeyError` instead of returning the
claimed `access_token not in response.` failure dict. -/
theorem C2_field_absent_raises_counterexample :
    (do_refresh_token baseClient trSubstringNoField).1 = .error .keyError ∧
    (do_refresh_token baseClient trSubstringNoField).1 ≠
      .ok ⟨false, 200, .s "access_token not in response."⟩ :=
  ⟨rfl, fun h => Except.noConfusion h⟩

/-- C2 (amended): `do_refresh_token` keys on the *substring* `access_token`
in the raw body, not on the field.  With `refresh_token` set and a 2xx
answer: if the substring occurs and the body parses to an object with a
string `access_token` field, that value is stored as the new access token
and returned as a success; if the substring does not occur, the
`access_token not in response.` failure is returned.  (A body containing
the substring but lacking the field raises `KeyError`.) -/
theorem C2_refresh_substring_semantics (c : Client) (tr : Transport) (rt : String)
    (hr : c.refresh_token = some rt) (w : WireResp)
    (hw : tr (refreshRequest (refreshDecoded c)) = w)
    (h2 : 200 ≤ w.code) (h3 : w.code < 300) :
    (∀ (j : Json) (t : String),
        strContains w.body "access_token" = true →
        jsonParse w.body = some j →
        jIndexStr j "access_token" = .ok (.str t) →
        do_refresh_token c tr =
          (.ok ⟨true, w.code, .s t⟩,
           { refreshDecoded c with access_token := some t },
           [refreshRequest (refreshDecoded c)])) ∧
    (strContains w.body "access_token" = false →
        do_refresh_token c tr =
          (.ok ⟨false, w.code, .s "access_token not in response."⟩,
           refreshDecoded c, [refreshRequest (refreshDecoded c)])) :=
  ⟨fun j t hsub hparse hidx =>
      do_refresh_token_success c tr rt hr w hw h2 h3 hsub j hparse t hidx,
   fun hsub => do_refresh_token_no_substring c tr rt hr w hw h2 h3 hsub⟩

/-- C2 witness: both branches of the amended refresh semantics evaluated
on concrete transports. -/
theorem C2_refresh_substring_semantics_witness :
    do_refresh_token baseClient trTokenOk =
      (.ok ⟨true, 200, .s "T"⟩,
       { refreshDecoded baseClient with access_token := some "T" },
       [refreshRequest (refreshDecoded baseClient)]) ∧
    do_refresh_token baseClient trNoToken =
      (.ok ⟨false, 200, .s "access_token not in response."⟩,
       refreshDecoded baseClient, [refreshRequest (refreshDecoded baseClient)]) :=
  ⟨(C2_refresh_substring_semantics baseClient trTokenOk "RTOK" rfl _ rfl
      (le_refl 200) (by decide)).1
      (.obj [("access_token", .str "T")]) "T" rfl rfl rfl,
   (C2_refresh_substring_semantics baseClient trNoToken "RTOK" rfl _ rfl
      (le_refl 200) (by decide)).2 rfl⟩

/-- C3 counterexample: with no access token, `get_report` does not return
the structured code-0 failure — it raises a JSON decode error (the local
failure message `access_token is empty.` is fed to `json.loads`). -/
theorem C3_get_report_raises_counterexample :
    get_report cNoAccess trAny gzNone "R1" = (.error .jsonDecodeError, []) ∧
    (get_report cNoAccess trAny gzNone "R1").1 ≠
      .ok ⟨false, 0, .s "access_token is empty."⟩ :=
  ⟨rfl, fun h => Except.noConfusion h⟩

/-- C3 (amended): with no access token set, every dispatcher-backed
resource operation returns `\x7bsuccess: false, code: 0, response:
"access_token is empty."\x7d` without issuing any request; `get_report` and
`get_snapshot`, however, raise a JSON decode error (still without a
network call) instead of returning that failure. -/
theorem C3_no_access_token_behaviour (c : Client) (h : c.access_token = none) :
    (∀ (tr : Transport) (interface : String) (params : Option Json) (method : String),
        _operation c tr interface params method =
          (.ok ⟨false, 0, .s "access_token is empty."⟩, [])) ∧
    (∀ (tr : Transport) (gz : Gunzip) (rid : String),
        get_report c tr gz rid = (.error .jsonDecodeError, [])) ∧
    (∀ (tr : Transport) (gz : Gunzip) (sid : String),
        get_snapshot c tr gz sid = (.error .jsonDecodeError, [])) :=
  ⟨fun tr i p m => _operation_no_access c tr i p m h,
   fun tr gz _rid => statusThenDownload_no_access c tr gz _ h,
   fun tr gz _sid => statusThenDownload_no_access c tr gz _ h⟩

/-- C3 witness: the no-access-token behaviour evaluated on a concrete
client, transport and operation set. -/
theorem C3_no_access_token_behaviour_witness :
    _operation cNoAccess trAny "campaigns" none "GET" =
      (.ok ⟨false, 0, .s "access_token is empty."⟩, []) ∧
    get_report cNoAccess trAny gzNone "R2" = (.error .jsonDecodeError, []) ∧
    get_snapshot cNoAccess trAny gzNone "S2" = (.error .jsonDecodeError, []) :=
  ⟨(C3_no_access_token_behaviour cNoAccess rfl).1 trAny "campaigns" none "GET",
   (C3_no_access_token_behaviour cNoAccess rfl).2.1 trAny gzNone "R2",
   (C3_no_access_token_behaviour cNoAccess rfl).2.2 trAny gzNone "S2"⟩

/-- C4 counterexample: `get_report` is a non-profile resource operation,
yet with `profile_id` unset it raises a JSON decode error (parsing the
local `profile_id is empty.` message) rather than returning the
structured failure. -/
theorem C4_get_report_profile_counterexample :
    get_report cNoProfile trAny gzNone "R1" = (.error .jsonDecodeError, []) ∧
    (get_report cNoProfile trAny gzNone "R1").1 ≠
      .ok ⟨false, 0, .s "profile_id is empty."⟩ :=
  ⟨rfl, fun h => Except.noConfusion h⟩

/-- C4 (amended): with an access token set and `profile_id` unset or
empty, every dispatcher-backed operation whose path does not contain
`profiles` returns `\x7bsuccess: false, code: 0, response: "profile_id is
empty."\x7d` without issuing any request, and `get_profiles` proceeds to the
network call; `get_report` under the same condition raises a JSON decode
error instead of returning the failure. -/
theorem C4_profile_precondition_behaviour (c : Client) (tok : String)
    (ht : c.access_token = some tok)
    (hp : c.profile_id = none ∨ c.profile_id = some "") :
    (∀ (tr : Transport) (interface : String) (params : Option Json) (method : String),
        strContains interface "profiles" = false →
        _operation c tr interface params method =
          (.ok ⟨false, 0, .s "profile_id is empty."⟩, [])) ∧
    (∀ (tr : Transport) (w : WireResp), tr (getRequest c tok "profiles") = w →
        200 ≤ w.code → w.code < 300 →
        get_profiles c tr =
          (.ok ⟨true, w.code, .s w.body⟩, [getRequest c tok "profiles"])) ∧
    (∀ (tr : Transport) (gz : Gunzip) (rid : String),
        strContains ("reports/" ++ rid) "profiles" = false →
        get_report c tr gz rid = (.error .jsonDecodeError, [])) := by
  refine ⟨fun tr i p m hni => _operation_profile_fail c tr i p m tok ht hp hni,
    fun tr w hw h2 h3 => ?_, fun tr gz rid hni =>
      statusThenDownload_no_profile c tr gz _ tok ht hp hni⟩
  unfold get_profiles
  rw [_operation_profiles_proceeds c tr "profiles" none "GET" tok ht hp rfl _
        (operationRequest_get c tok "profiles"),
      sendAndWrap_of_2xx tr _ w hw h2 h3]

/-- C4 witness: the profile-precondition behaviour evaluated on a
concrete client with `profile_id` unset. -/
theorem C4_profile_precondition_behaviour_witness :
    _operation cNoProfile trAny "campaigns" none "GET" =
      (.ok ⟨false, 0, .s "profile_id is empty."⟩, []) ∧
    get_profiles cNoProfile trAny =
      (.ok ⟨true, 200, .s "x"⟩, [getRequest cNoProfile "TOK" "profiles"]) ∧
    get_report cNoProfile trAny gzNone "R2" = (.error .jsonDecodeError, []) :=
  ⟨(C4_profile_precondition_behaviour cNoProfile "TOK" rfl (Or.inl rfl)).1
      trAny "campaigns" none "GET" rfl,
   (C4_profile_precondition_behaviour cNoProfile "TOK" rfl (Or.inl rfl)).2.1
      trAny _ rfl (le_refl 200) (by decide),
   (C4_profile_precondition_behaviour cNoProfile "TOK" rfl (Or.inl rfl)).2.2
      trAny gzNone "R2" rfl⟩

/-- C5 counterexample: on a 400 with reason `Bad Request` and body
`bad_request`, the response field is the reason plus the Python 3
bytes-repr of the body — `Bad Request: b<squote>bad_request<squote>` —
not the claimed plain `Bad Request: bad_request`. -/
theorem C5_bytes_repr_counterexample :
    (do_refresh_token baseClient trHttp400).1 =
      .ok ⟨false, 400, .s ("Bad Request: b" ++ sq ++ "bad_request" ++ sq)⟩ ∧
    ("Bad Request: b" ++ sq ++ "bad_request" ++ sq) ≠ "Bad Request: bad_request" :=
  ⟨rfl, by decide⟩

/-- C5 (amended): with `refresh_token` set and a transport answering a
non-2xx, non-3xx status, `do_refresh_token` returns a failure carrying
the HTTP status code and the message `<reason>: <bytes-repr of body>` —
on Python 3 the error body read from `HTTPError` is `bytes`, so
`str.format` renders its `b'...'` repr rather than the bare text. -/
theorem C5_refresh_http_error_message (c : Client) (tr : Transport) (rt : String)
    (hr : c.refresh_token = some rt) (w : WireResp)
    (hw : tr (refreshRequest (refreshDecoded c)) = w)
    (hcode : w.code < 200 ∨ 400 ≤ w.code) :
    do_refresh_token c tr =
      (.ok ⟨false, w.code, .s (w.msg ++ ": " ++ pyBytesRepr w.body)⟩,
       refreshDecoded c, [refreshRequest (refreshDecoded c)]) :=
  do_refresh_token_http_error c tr rt hr w hw hcode

/-- C5 witness: the HTTP-failure message theorem evaluated on a concrete
400 response. -/
theorem C5_refresh_http_error_message_witness :
    do_refresh_token baseClient trHttp400 =
      (.ok ⟨false, 400, .s ("Bad Request: b" ++ sq ++ "bad_request" ++ sq)⟩,
       refreshDecoded baseClient, [refreshRequest (refreshDecoded baseClient)]) :=
  C5_refresh_http_error_message baseClient trHttp400 "RTOK" rfl _ rfl
    (Or.inr (by decide))

/-- C6 counterexample: a status response
`\x7b"status": "SUCCESS", "location": null\x7d` does not yield the claimed
`Location is empty.` failure: `get_report` raises a `ValueError` while
building a request from the null URL. -/
theorem C6_location_null_counterexample :
    get_report baseClient trLocNull gzNone "R1" =
      (.error (.valueError (urlTypeErrorMsg "None")),
       [getRequest baseClient "TOK" ("reports/" ++ "R1")]) ∧
    (get_report baseClient trLocNull gzNone "R1").1 ≠
      .ok ⟨false, 200, .s "Location is empty."⟩ :=
  ⟨rfl, fun h => Except.noConfusion h⟩

/-- C6 (amended): when the status check parses with status `SUCCESS`, a
`location` of JSON null makes `get_report` raise `ValueError` (the null
is turned into the unusable URL string `None`), and an entirely absent
`location` field makes it raise `KeyError`; neither case returns a
structured failure.  The `Location is empty.` / `Location not found.`
messages concern the 307 redirect's `Location` header inside `_download`
instead. -/
theorem C6_location_null_or_absent_raises (c : Client) (tr : Transport) (gz : Gunzip)
    (rid tok p : String)
    (ht : c.access_token = some tok) (hp : c.profile_id = some p) (hpne : p ≠ "")
    (w1 : WireResp) (hw1 : tr (getRequest c tok ("reports/" ++ rid)) = w1)
    (h2 : 200 ≤ w1.code) (h3 : w1.code < 300)
    (j : Json) (hparse : jsonParse w1.body = some j)
    (hstatus : jIndexStr j "status" = .ok (.str "SUCCESS")) :
    (jIndexStr j "location" = .ok .null →
        get_report c tr gz rid =
          (.error (.valueError (urlTypeErrorMsg "None")),
           [getRequest c tok ("reports/" ++ rid)])) ∧
    (jIndexStr j "location" = .error .keyError →
        get_report c tr gz rid =
          (.error .keyError, [getRequest c tok ("reports/" ++ rid)])) := by
  constructor
  · intro hloc
    unfold get_report
    rw [statusThenDownload_success c tr gz _ tok p ht hp hpne w1 hw1 h2 h3
          j hparse hstatus _ hloc,
        _download_null_location c tr gz p hp]
  · intro hloc
    exact statusThenDownload_location_key_error c tr gz _ tok p ht hp hpne w1 hw1 h2 h3
      j hparse hstatus hloc

/-- C6 witness: both raising paths evaluated on concrete status
responses. -/
theorem C6_location_null_or_absent_raises_witness :
    get_report baseClient trLocNull gzNone "R2" =
      (.error (.valueError (urlTypeErrorMsg "None")),
       [getRequest baseClient "TOK" ("reports/" ++ "R2")]) ∧
    get_report baseClient trLocAbsent gzNone "R3" =
      (.error .keyError, [getRequest baseClient "TOK" ("reports/" ++ "R3")]) :=
  ⟨(C6_location_null_or_absent_raises baseClient trLocNull gzNone "R2" "TOK" "PROF"
      rfl rfl (by decide) _ rfl (le_refl 200) (by decide)
      (.obj [("status", .str "SUCCESS"), ("location", .null)]) rfl rfl).1 rfl,
   (C6_location_null_or_absent_raises baseClient trLocAbsent gzNone "R3" "TOK" "PROF"
      rfl rfl (by decide) _ rfl (le_refl 200) (by decide)
      (.obj [("status", .str "SUCCESS")]) rfl rfl).2 rfl⟩

/-- C7: `do_refresh_token` on a client whose `refresh_token` is unset
returns `\x7bsuccess: false, code: 0, response: "refresh_token is empty."\x7d`
without touching the transport or the token state. -/
theorem C7_refresh_requires_token (c : Client) (tr : Transport)
    (h : c.refresh_token = none) :
    do_refresh_token c tr =
      (.ok ⟨false, 0, .s "refresh_token is empty."⟩, c, []) := by
  unfold do_refresh_token
  rw [h]

/-- C7 witness: the missing-refresh-token failure on a concrete client. -/
theorem C7_refresh_requires_token_witness :
    do_refresh_token cNoRefresh trAny =
      (.ok ⟨false, 0, .s "refresh_token is empty."⟩, cNoRefresh, []) :=
  C7_refresh_requires_token cNoRefresh trAny rfl

theorem sendAndWrap_trace (tr : Transport) (req : Request) :
    (sendAndWrap tr req).2 = [req] := by
  unfold sendAndWrap
  rcases h : urlopenDefault tr req with e | ok
  · rcases e <;> rfl
  · rfl

theorem operationRequest_headers (c : Client) (tok interface : String)
    (params : Option Json) (method : String) (req : Request)
    (hreq : operationRequest c tok interface params method = .ok req) :
    req.headers = operationHeaders c tok := by
  unfold operationRequest at hreq
  by_cases hm : method = "GET"
  · rw [if_pos hm] at hreq
    rcases hq : queryOfParams params with e | q <;> rw [hq] at hreq
    · exact Except.noConfusion hreq
    · injection hreq with h
      rw [← h]
  · rw [if_neg hm] at hreq
    injection hreq with h
    rw [← h]

/-- C8: the uniform-result contract has exceptions: `archive_product_ads`
is a bare `pass` and returns `None` for every client, and
`request_report` / `request_snapshot` called with neither a record type
nor an id fall through their `if/elif` and return `None`. -/
theorem C8_operations_returning_none :
    (∀ c : Client, archive_product_ads c = none) ∧
    (∀ (c : Client) (tr : Transport) (data : Option Json),
        request_report c tr none none data = none) ∧
    (∀ (c : Client) (tr : Transport) (data : Option Json),
        request_snapshot c tr none none data = none) :=
  ⟨fun _ => rfl, fun _ _ _ => rfl, fun _ _ _ => rfl⟩

/-- C9: before issuing its network request, `do_refresh_token` overwrites
the stored `refresh_token` (and, when non-empty, the stored
`access_token`) in place with their percent-decoded forms — the request
itself is built from the decoded state — and when the HTTP token request
fails those decoded values remain stored. -/
theorem C9_refresh_decodes_tokens_in_place (c : Client) (rt a : String)
    (hr : c.refresh_token = some rt) (ha : c.access_token = some a) (hne : a ≠ "")
    (tr : Transport) (w : WireResp)
    (hw : tr (refreshRequest (refreshDecoded c)) = w)
    (hcode : w.code < 200 ∨ 400 ≤ w.code) :
    do_refresh_token c tr =
      (.ok ⟨false, w.code, .s (httpErrorText w.msg w.body)⟩,
       refreshDecoded c, [refreshRequest (refreshDecoded c)]) ∧
    (refreshDecoded c).access_token = some (unquote a) ∧
    (refreshDecoded c).refresh_token = some (unquote rt) := by
  refine ⟨do_refresh_token_http_error c tr rt hr w hw hcode, ?_, ?_⟩
  · simp [refreshDecoded, ha, hne]
  · simp [refreshDecoded, hr]

/-- C9 witness: percent-encoded tokens `a%20b` / `r%2Fc` are decoded in
place and survive a failed HTTP refresh. -/
theorem C9_refresh_decodes_tokens_in_place_witness :
    do_refresh_token cEncodedTokens trHttp400 =
      (.ok ⟨false, 400, .s ("Bad Request: b" ++ sq ++ "bad_request" ++ sq)⟩,
       refreshDecoded cEncodedTokens,
       [refreshRequest (refreshDecoded cEncodedTokens)]) ∧
    (refreshDecoded cEncodedTokens).access_token = some "a b" ∧
    (refreshDecoded cEncodedTokens).refresh_token = some "r/c" :=
  C9_refresh_decodes_tokens_in_place cEncodedTokens "r%2Fc" "a%20b" rfl rfl
    (by decide) trHttp400 _ rfl (Or.inr (by decide))

/-- C10: the dispatcher's access-token check fires only on `None`: with
`access_token` the empty string (and the profile precondition satisfied)
every operation proceeds to the network — the built request opens with
the header `Authorization: Bearer ` (empty token) and is the one request
issued — whereas the same client with `access_token = None` gets the
local code-0 `access_token is empty.` failure. -/
theorem C10_empty_access_token_not_checked (c : Client)
    (h : c.access_token = some "") :
    (∀ (tr : Transport) (interface : String) (params : Option Json) (method : String)
        (p : String), c.profile_id = some p → p ≠ "" →
        ∀ req, operationRequest c "" interface params method = .ok req →
        _operation c tr interface params method = sendAndWrap tr req ∧
        (sendAndWrap tr req).2 = [req] ∧
        req.headers.head? = some ("Authorization", "Bearer ")) ∧
    (∀ (tr : Transport) (interface : String) (params : Option Json) (method : String),
        _operation { c with access_token := none } tr interface params method =
          (.ok ⟨false, 0, .s "access_token is empty."⟩, [])) := by
  constructor
  · intro tr interface params method p hp hpne req hreq
    refine ⟨_operation_sends c tr interface params method "" p h hp hpne req hreq,
      sendAndWrap_trace tr req, ?_⟩
    rw [operationRequest_headers c "" interface params method req hreq]
    simp [operationHeaders, baseHeaders]
  · intro tr interface params method
    exact _operation_no_access _ tr interface params method rfl

/-- C10 witness: the empty-token dispatch evaluated on a concrete client
and transport. -/
theorem C10_empty_access_token_not_checked_witness :
    _operation cEmptyAccess trAny "campaigns" none "GET" =
      sendAndWrap trAny (getRequest cEmptyAccess "" "campaigns") ∧
    (sendAndWrap trAny (getRequest cEmptyAccess "" "campaigns")).2 =
      [getRequest cEmptyAccess "" "campaigns"] ∧
    (getRequest cEmptyAccess "" "campaigns").headers.head? =
      some ("Authorization", "Bearer ") :=
  (C10_empty_access_token_not_checked cEmptyAccess rfl).1 trAny "campaigns" none "GET"
    "PROF" rfl (by decide) _ (operationRequest_get cEmptyAccess "" "campaigns")
